import Mathlib

/-!
# SVA processor-state header (`SVA/include/sva/state.h`)

A shallow embedding of the declarations of `state.h`:

* the C struct declarations (`sva_fp_state_t`, `invoke_frame`,
  `sva_icontext_t`, `sva_integer_state_t`, `SVAThread`, `CPUState`) as field
  lists laid out by the C struct layout rules, parameterised by the data model
  (ILP32 or LP64);
* the constants `maxIC` and `maxPushTargets`;
* the two inline functions `getCPUState` and `sva_was_privileged`;
* the allocator and the invoke/unwind chain, which `state.h` only declares.
-/

namespace SVA

/-! ## C data model and struct layout -/

/-- The data model of the target: the byte size of a pointer (and of
`uintptr_t`) and the byte size of `unsigned long`. -/
structure ABI where
  pointerBytes : Nat
  longBytes : Nat
  deriving DecidableEq, Repr

/-- 32-bit data model: 4-byte pointers and 4-byte `unsigned long`. -/
def ILP32 : ABI := { pointerBytes := 4, longBytes := 4 }

/-- 64-bit data model: 8-byte pointers and 8-byte `unsigned long`. -/
def LP64 : ABI := { pointerBytes := 8, longBytes := 8 }

/-- The machine word of a data model is its pointer-sized integer. -/
def ABI.wordBytes (abi : ABI) : Nat := abi.pointerBytes

/-- A C object type, reduced to what the layout rules look at. -/
structure CType where
  size : Nat
  align : Nat
  deriving DecidableEq, Repr

/-- The type `unsigned char`. -/
def uchar : CType := { size := 1, align := 1 }

/-- The type `uint32_t`. -/
def uint32_t : CType := { size := 4, align := 4 }

/-- The type `unsigned long`. -/
def ulong (abi : ABI) : CType := { size := abi.longBytes, align := abi.longBytes }

/-- Any object pointer type (`void *`, `sva_fp_state_t *`, ...). -/
def pointer (abi : ABI) : CType := { size := abi.pointerBytes, align := abi.pointerBytes }

/-- The type `uintptr_t`. -/
def uintptr_t (abi : ABI) : CType := { size := abi.pointerBytes, align := abi.pointerBytes }

/-- The array type `t[n]`: `n` elements back to back, aligned as one element. -/
def arrayOf (t : CType) (n : Nat) : CType := { size := n * t.size, align := t.align }

/-- One member of a struct declaration. -/
structure Field where
  name : String
  type : CType
  deriving DecidableEq, Repr

/-- The least multiple of `a` that is at least `off`. -/
def alignUp (off a : Nat) : Nat := (off + a - 1) / a * a

/-- Offsets of the members of a struct whose first free byte is `off`: every
member is placed at the next offset that satisfies its alignment. -/
def layoutFrom (off : Nat) : List Field → List (String × Nat)
  | [] => []
  | f :: fs =>
    let o := alignUp off f.type.align
    (f.name, o) :: layoutFrom (o + f.type.size) fs

/-- The first byte after the last member. -/
def endFrom (off : Nat) : List Field → Nat
  | [] => off
  | f :: fs => endFrom (alignUp off f.type.align + f.type.size) fs

/-- Alignment of a struct: the strictest member alignment, raised to the
value of an `aligned (n)` attribute (`attr = 1` when there is none). -/
def structAlign (attr : Nat) (fs : List Field) : Nat :=
  fs.foldl (fun a f => max a f.type.align) attr

/-- A struct as a type: its size is the end of the last member padded to the
alignment of the struct. -/
def structType (attr : Nat) (fs : List Field) : CType :=
  { size := alignUp (endFrom 0 fs) (structAlign attr fs), align := structAlign attr fs }

/-- The value of `offsetof (struct, name)`, when `name` is a member. -/
def offsetOf (fs : List Field) (name : String) : Option Nat :=
  (layoutFrom 0 fs).lookup name

/-- The value of `sizeof (member)`, when `name` is a member. -/
def sizeOfField (fs : List Field) (name : String) : Option Nat :=
  (fs.find? (fun f => f.name == name)).map (fun f => f.type.size)

/-! ## The declarations of `state.h` -/

/-- The maximum number of interrupt contexts per CPU (`unsigned char`). -/
def maxIC : Nat := 32

/-- The maximum number of valid function targets (`unsigned char`). -/
def maxPushTargets : Nat := 16

/-- Members of `sva_fp_state_t`. -/
def sva_fp_state_fields : List Field :=
  [ ⟨"words", arrayOf uchar 512⟩,
    ⟨"present", uchar⟩ ]

/-- The type `sva_fp_state_t`, declared `aligned (16)`. -/
def sva_fp_state_t : CType := structType 16 sva_fp_state_fields

/-- Members of `struct invoke_frame`. -/
def invoke_frame_fields (abi : ABI) : List Field :=
  [ ⟨"r4", uintptr_t abi⟩, ⟨"r5", uintptr_t abi⟩, ⟨"r6", uintptr_t abi⟩,
    ⟨"r7", uintptr_t abi⟩, ⟨"r8", uintptr_t abi⟩, ⟨"r9", uintptr_t abi⟩,
    ⟨"r10", uintptr_t abi⟩, ⟨"r11", uintptr_t abi⟩,
    ⟨"next", pointer abi⟩,
    ⟨"cpinvoke", uintptr_t abi⟩ ]

/-- Members of `sva_icontext_t`. -/
def sva_icontext_fields (abi : ABI) : List Field :=
  [ ⟨"invokep", pointer abi⟩,
    ⟨"r0", uint32_t⟩, ⟨"r1", uint32_t⟩, ⟨"r2", uint32_t⟩, ⟨"r3", uint32_t⟩,
    ⟨"r4", uint32_t⟩, ⟨"r5", uint32_t⟩, ⟨"r6", uint32_t⟩, ⟨"r7", uint32_t⟩,
    ⟨"r8", uint32_t⟩, ⟨"r9", uint32_t⟩, ⟨"r10", uint32_t⟩, ⟨"r11", uint32_t⟩,
    ⟨"r12", uint32_t⟩, ⟨"r13", uint32_t⟩, ⟨"r14", uint32_t⟩, ⟨"r15", uint32_t⟩,
    ⟨"trapno", ulong abi⟩,
    ⟨"spsr", uint32_t⟩,
    ⟨"valid", ulong abi⟩,
    ⟨"fpstate", pointer abi⟩ ]

/-- The type `sva_icontext_t`, declared `aligned (16)`. -/
def sva_icontext_t (abi : ABI) : CType := structType 16 (sva_icontext_fields abi)

/-- Members of `sva_integer_state_t`. -/
def sva_integer_state_fields (abi : ABI) : List Field :=
  [ ⟨"invokep", pointer abi⟩,
    ⟨"r0", uint32_t⟩, ⟨"r1", uint32_t⟩, ⟨"r2", uint32_t⟩, ⟨"r3", uint32_t⟩,
    ⟨"r4", uint32_t⟩, ⟨"r5", uint32_t⟩, ⟨"r6", uint32_t⟩, ⟨"r7", uint32_t⟩,
    ⟨"r8", uint32_t⟩, ⟨"r9", uint32_t⟩, ⟨"r10", uint32_t⟩, ⟨"r11", uint32_t⟩,
    ⟨"r12", uint32_t⟩, ⟨"r13", uint32_t⟩, ⟨"r14", uint32_t⟩, ⟨"r15", uint32_t⟩,
    ⟨"trapno", ulong abi⟩,
    ⟨"spsr", uint32_t⟩,
    ⟨"valid", ulong abi⟩,
    ⟨"kstackp", ulong abi⟩,
    ⟨"currentIC", pointer abi⟩,
    ⟨"fpstate", sva_fp_state_t⟩,
    ⟨"ifp", pointer abi⟩ ]

/-- The type `sva_integer_state_t` (no alignment attribute of its own). -/
def sva_integer_state_t (abi : ABI) : CType := structType 1 (sva_integer_state_fields abi)

/-- Members of `struct SVAThread`; the two `#if 0` members are not compiled. -/
def SVAThread_fields (abi : ABI) : List Field :=
  [ ⟨"interruptContexts", arrayOf (sva_icontext_t abi) (maxIC + 1)⟩,
    ⟨"savedInterruptContexts", arrayOf (sva_icontext_t abi) (maxIC + 1)⟩,
    ⟨"ICFP", arrayOf sva_fp_state_t (maxIC + 1)⟩,
    ⟨"validPushTargets", arrayOf (pointer abi) maxPushTargets⟩,
    ⟨"numPushTargets", uchar⟩,
    ⟨"integerState", sva_integer_state_t abi⟩,
    ⟨"secmemSize", uintptr_t abi⟩,
    ⟨"savedICIndex", uchar⟩,
    ⟨"ICFPIndex", uchar⟩,
    ⟨"used", uchar⟩,
    ⟨"rid", uintptr_t abi⟩ ]

/-- The type `struct SVAThread`, declared `aligned (16)`. -/
def SVAThread_t (abi : ABI) : CType := structType 16 (SVAThread_fields abi)

/-- Members of `struct CPUState`. -/
def CPUState_fields (abi : ABI) : List Field :=
  [ ⟨"currentThread", pointer abi⟩,
    ⟨"tssp", pointer abi⟩,
    ⟨"newCurrentIC", pointer abi⟩,
    ⟨"gip", pointer abi⟩,
    ⟨"fp_used", uchar⟩ ]

/-- Offset of element `i` of an array member with elements of type `elem`:
the member's offset plus `i` elements, when element `i` lies inside the
member. -/
def elementOffset (fs : List Field) (name : String) (elem : CType) (i : Nat) : Option Nat :=
  match offsetOf fs name, sizeOfField fs name with
  | some o, some sz => if (i + 1) * elem.size ≤ sz then some (o + i * elem.size) else none
  | _, _ => none


/-! ## Objects of these types -/

/-- Conversion of a non-negative integer to `unsigned char`. -/
def toUChar (n : Nat) : Nat := n % 2 ^ 8

/-- A C array of `n` elements. -/
abbrev CArray (α : Type) (n : Nat) : Type := Fin n → α

/-- Bounds-checked read of slot `i` of an array. -/
def CArray.slot? {α : Type} {n : Nat} (a : CArray α n) (i : Nat) : Option α :=
  if h : i < n then some (a ⟨i, h⟩) else none

/-- An object of type `sva_fp_state_t`. -/
structure FPState where
  words : CArray Nat 512
  present : Nat

/-- A value of type `struct invoke_frame *`: the null pointer, or a pointer
to a frame with the members of `struct invoke_frame`, whose member `next` is
again such a pointer. -/
inductive InvokeFramePtr where
  | null
  | frame (r4 r5 r6 r7 r8 r9 r10 r11 : Nat) (next : InvokeFramePtr) (cpinvoke : Nat)

/-- An object of type `sva_icontext_t`; pointers are addresses. -/
structure IContext where
  invokep : Nat
  r0 : Nat
  r1 : Nat
  r2 : Nat
  r3 : Nat
  r4 : Nat
  r5 : Nat
  r6 : Nat
  r7 : Nat
  r8 : Nat
  r9 : Nat
  r10 : Nat
  r11 : Nat
  r12 : Nat
  r13 : Nat
  r14 : Nat
  r15 : Nat
  trapno : Nat
  spsr : Nat
  valid : Nat
  fpstate : Nat

/-- An object of type `sva_integer_state_t`. -/
structure IntegerState where
  invokep : Nat
  r0 : Nat
  r1 : Nat
  r2 : Nat
  r3 : Nat
  r4 : Nat
  r5 : Nat
  r6 : Nat
  r7 : Nat
  r8 : Nat
  r9 : Nat
  r10 : Nat
  r11 : Nat
  r12 : Nat
  r13 : Nat
  r14 : Nat
  r15 : Nat
  trapno : Nat
  spsr : Nat
  valid : Nat
  kstackp : Nat
  currentIC : Nat
  fpstate : FPState
  ifp : InvokeFramePtr

/-- An object of type `struct SVAThread`. -/
structure SVAThread where
  interruptContexts : CArray IContext (maxIC + 1)
  savedInterruptContexts : CArray IContext (maxIC + 1)
  ICFP : CArray FPState (maxIC + 1)
  validPushTargets : CArray Nat maxPushTargets
  numPushTargets : Nat
  integerState : IntegerState
  secmemSize : Nat
  savedICIndex : Nat
  ICFPIndex : Nat
  used : Nat
  rid : Nat

/-- An object of type `struct CPUState`. -/
structure CPUState where
  currentThread : Nat
  tssp : Nat
  newCurrentIC : Nat
  gip : InvokeFramePtr
  fp_used : Nat

/-- The memory the inline functions of `state.h` run against: the pointer the
platform keeps for the running processor, and the `CPUState` and
`sva_icontext_t` objects by address. -/
structure Machine where
  perCPU : Nat
  cpuStates : Nat → Option CPUState
  icontexts : Nat → Option IContext

/-- Dereference of a `struct CPUState *`; there is no object at the null
pointer. -/
def Machine.loadCPUState (m : Machine) (p : Nat) : Option CPUState :=
  if p = 0 then none else m.cpuStates p

/-- Dereference of a `sva_icontext_t *`. -/
def Machine.loadIContext (m : Machine) (p : Nat) : Option IContext :=
  if p = 0 then none else m.icontexts p

/-- Saved mode bits of the most recent interrupt context of the running
processor: the pointer chain `cpup->newCurrentIC->spsr`. -/
def Machine.savedModeBits (m : Machine) : Option Nat := do
  let cpup ← m.loadCPUState m.perCPU
  let currentIC ← m.loadIContext cpup.newCurrentIC
  pure currentIC.spsr

/-! ## The inline functions of `state.h` -/

/-- Function `getCPUState`: the local `cpustate` is initialised to `0`, the
assembly that would load it is under `#if 0`, and it is returned. -/
def getCPUState (_m : Machine) : Nat :=
  let cpustate : Nat := 0
  cpustate

/-- Logical negation `!` of C. -/
def cNot (x : Nat) : Nat := if x = 0 then 1 else 0

/-- Function `sva_was_privileged`: both loads are under `#if 0`, `cs` is the
constant `0`, and the result is `!(cs & userCodeSegmentMask)` as an
`unsigned char`. -/
def sva_was_privileged (_m : Machine) : Nat :=
  let userCodeSegmentMask : Nat := 0x03
  let cs : Nat := 0
  toUChar (cNot (cs &&& userCodeSegmentMask))

/-- Return values of `sva_was_privileged` as its header comment documents
them: true when the saved mode bits have none of the user-mode bits, false
when they have some. -/
def wasPrivilegedDocumented (modeBits : Nat) : Nat :=
  if modeBits &&& 0x03 = 0 then 1 else 0

/-- Byte offsets written beside the members of `sva_icontext_t` that the
contract cites, as the comments of the declaration give them. -/
def documentedOffsets : List (String × Nat) :=
  [ ("invokep", 0x00), ("r4", 0x20), ("r8", 0x40), ("r13", 0x68), ("r14", 0x70),
    ("r15", 0x78), ("trapno", 0x88), ("valid", 0xc0), ("fpstate", 0xc8) ]

/-- Names of the members `sva_icontext_t` and `sva_integer_state_t` begin
with. -/
def sharedMembers : List String :=
  [ "invokep", "r0", "r1", "r2", "r3", "r4", "r5", "r6", "r7", "r8", "r9", "r10",
    "r11", "r12", "r13", "r14", "r15", "trapno", "spsr", "valid" ]

/-- Number of frames on the chain that starts at a frame pointer. -/
def chainLength : InvokeFramePtr → Nat
  | .null => 0
  | .frame _ _ _ _ _ _ _ _ next _ => chainLength next + 1

/-! ## Operations that `state.h` leaves to other files -/

/-- Failures of the allocator and of the invoke chain. -/
inductive Failure where
  | PoolExhaustion
  | ContractViolation
  | UnwindUnderflow
  deriving DecidableEq, Repr

/-- Modelled from the spec: the per-thread pool state of the interrupt-context
allocator. `state.h` declares the saved-context cursor `savedICIndex` and the
floating-point cursor `ICFPIndex` inside `struct SVAThread`; the current-depth
cursor of the data model is kept next to the thread. -/
structure ThreadState where
  thread : SVAThread
  currentDepth : Nat

/-- The members of a `struct invoke_frame` other than the link. -/
structure FrameData where
  r4 : Nat
  r5 : Nat
  r6 : Nat
  r7 : Nat
  r8 : Nat
  r9 : Nat
  r10 : Nat
  r11 : Nat
  cpinvoke : Nat
  deriving DecidableEq, Repr

/-- Modelled from the spec: the entry of `sva_invoke`, which `state.h` only
declares. Before it calls the function, `sva_invoke` pushes a new frame with
the callee-saved registers and the continuation address onto the chain of the
processor: the frame links to the old head and `gip` points to the frame. -/
def sva_invoke_enter (d : FrameData) (cpu : CPUState) : CPUState :=
  { cpu with gip := .frame d.r4 d.r5 d.r6 d.r7 d.r8 d.r9 d.r10 d.r11 cpu.gip d.cpinvoke }

/-- Modelled from the spec: `sva_iunwind`, which `state.h` only declares. It
pops the top frame of the chain and hands back the registers and continuation
to resume at; unwinding with an empty chain is fatal. -/
def sva_iunwind (cpu : CPUState) : Except Failure (CPUState × FrameData) :=
  match cpu.gip with
  | .null => .error .UnwindUnderflow
  | .frame r4 r5 r6 r7 r8 r9 r10 r11 next cpinvoke =>
    .ok ({ cpu with gip := next }, ⟨r4, r5, r6, r7, r8, r9, r10, r11, cpinvoke⟩)

/-- Nested `sva_invoke` calls, the outermost first: each one has pushed its
frame and is inside its function. -/
def invokeNested : List FrameData → CPUState → CPUState
  | [], cpu => cpu
  | d :: ds, cpu => invokeNested ds (sva_invoke_enter d cpu)

/-- As many `sva_iunwind` calls in a row, stopping at the first failure. -/
def iunwindN : Nat → CPUState → Except Failure CPUState
  | 0, cpu => .ok cpu
  | n + 1, cpu =>
    match sva_iunwind cpu with
    | .ok (next, _) => iunwindN n next
    | .error e => .error e

/-! ## Concrete objects -/

/-- An all-zero interrupt context. -/
def IContext.zero : IContext :=
  ⟨0, 0, 0, 0, 0, 0, 0, 0, 0, 0, 0, 0, 0, 0, 0, 0, 0, 0, 0, 0, 0⟩

/-- An all-zero floating point state. -/
def FPState.zero : FPState := ⟨fun _ => 0, 0⟩

/-- An all-zero integer state. -/
def IntegerState.zero : IntegerState :=
  ⟨0, 0, 0, 0, 0, 0, 0, 0, 0, 0, 0, 0, 0, 0, 0, 0, 0, 0, 0, 0, 0, 0, FPState.zero, .null⟩

/-- An all-zero thread. -/
def SVAThread.zero : SVAThread :=
  { interruptContexts := fun _ => IContext.zero
    savedInterruptContexts := fun _ => IContext.zero
    ICFP := fun _ => FPState.zero
    validPushTargets := fun _ => 0
    numPushTargets := 0
    integerState := IntegerState.zero
    secmemSize := 0
    savedICIndex := 0
    ICFPIndex := 0
    used := 0
    rid := 0 }

/-- A thread right after creation. -/
def ThreadState.zero : ThreadState := { thread := SVAThread.zero, currentDepth := 0 }

/-- A processor with an empty invoke chain. -/
def CPUState.zero : CPUState :=
  { currentThread := 0, tssp := 0, newCurrentIC := 0, gip := .null, fp_used := 0 }

/-- A machine whose running processor has its `CPUState` at address `0x1000`
and whose most recent interrupt context, at address `0x2000`, was saved in
user mode (mode bits `3`). -/
def userModeMachine : Machine :=
  { perCPU := 0x1000
    cpuStates := fun p => if p = 0x1000 then some { CPUState.zero with newCurrentIC := 0x2000 } else none
    icontexts := fun p => if p = 0x2000 then some { IContext.zero with spsr := 3 } else none }

/-! ## Layout of the saved-register records -/

/-- C1: under the ILP32 and the LP64 data model `sva_icontext_t` is aligned to
16 bytes, and its size is a multiple of 16, an even number of machine words
and an even number of 8-byte quad words. -/
theorem sva_icontext_size_even_words :
    ((sva_icontext_t ILP32).align = 16 ∧
      (sva_icontext_t ILP32).size % 16 = 0 ∧
      (sva_icontext_t ILP32).size % ILP32.wordBytes = 0 ∧
      ((sva_icontext_t ILP32).size / ILP32.wordBytes) % 2 = 0 ∧
      (sva_icontext_t ILP32).size % 8 = 0 ∧
      ((sva_icontext_t ILP32).size / 8) % 2 = 0) ∧
    ((sva_icontext_t LP64).align = 16 ∧
      (sva_icontext_t LP64).size % 16 = 0 ∧
      (sva_icontext_t LP64).size % LP64.wordBytes = 0 ∧
      ((sva_icontext_t LP64).size / LP64.wordBytes) % 2 = 0 ∧
      (sva_icontext_t LP64).size % 8 = 0 ∧
      ((sva_icontext_t LP64).size / 8) % 2 = 0) := by
  decide

/-- C7: the offsets of the members of `sva_icontext_t` that carry an offset
comment. Under ILP32 and under LP64 only `invokep` lies at its documented
offset `0x00`; `r4`, `r8`, `r13`, `r14`, `r15`, `trapno`, `valid` and
`fpstate` lie below the offsets written beside them. -/
theorem sva_icontext_offsets_against_comments :
    documentedOffsets.map (fun e => (e.1, offsetOf (sva_icontext_fields ILP32) e.1)) =
      [ ("invokep", some 0x00), ("r4", some 0x14), ("r8", some 0x24), ("r13", some 0x38),
        ("r14", some 0x3c), ("r15", some 0x40), ("trapno", some 0x44), ("valid", some 0x4c),
        ("fpstate", some 0x50) ] ∧
    documentedOffsets.map (fun e => (e.1, offsetOf (sva_icontext_fields LP64) e.1)) =
      [ ("invokep", some 0x00), ("r4", some 0x18), ("r8", some 0x28), ("r13", some 0x3c),
        ("r14", some 0x40), ("r15", some 0x44), ("trapno", some 0x48), ("valid", some 0x58),
        ("fpstate", some 0x60) ] ∧
    documentedOffsets.filter (fun e => offsetOf (sva_icontext_fields ILP32) e.1 == some e.2) =
      [ ("invokep", 0x00) ] ∧
    documentedOffsets.filter (fun e => offsetOf (sva_icontext_fields LP64) e.1 == some e.2) =
      [ ("invokep", 0x00) ] := by
  decide

/-- C8: under ILP32 and under LP64 the members `invokep`, `r0` .. `r15`,
`trapno`, `spsr`, `valid` open both `sva_icontext_t` and
`sva_integer_state_t`, in this order, and each of them has the same byte
offset and the same size in the two types. -/
theorem shared_members_same_offset_and_size (abi : ABI) (habi : abi = ILP32 ∨ abi = LP64)
    (name : String) (hname : name ∈ sharedMembers) :
    (sva_icontext_fields abi).map Field.name = sharedMembers ++ ["fpstate"] ∧
    (sva_integer_state_fields abi).map Field.name =
      sharedMembers ++ ["kstackp", "currentIC", "fpstate", "ifp"] ∧
    (offsetOf (sva_icontext_fields abi) name).isSome = true ∧
    offsetOf (sva_icontext_fields abi) name = offsetOf (sva_integer_state_fields abi) name ∧
    (sizeOfField (sva_icontext_fields abi) name).isSome = true ∧
    sizeOfField (sva_icontext_fields abi) name =
      sizeOfField (sva_integer_state_fields abi) name := by
  revert name
  rcases habi with h | h <;> subst h <;> decide

/-- C8 at the member `valid` under ILP32, which lies at offset 76 in both
types. -/
theorem shared_members_same_offset_and_size_witness :
    (ILP32 = ILP32 ∨ ILP32 = LP64) ∧ "valid" ∈ sharedMembers ∧
    offsetOf (sva_icontext_fields ILP32) "valid" = some 76 ∧
    offsetOf (sva_icontext_fields ILP32) "valid" =
      offsetOf (sva_integer_state_fields ILP32) "valid" :=
  ⟨Or.inl rfl, by decide, by decide,
    (shared_members_same_offset_and_size ILP32 (Or.inl rfl) "valid" (by decide)).2.2.2.1⟩

/-- Element `i` of an array member that holds it lies `i` elements after the
start of the member. -/
theorem elementOffset_of_fits (elem : CType) (i : Nat) {fs : List Field} {name : String}
    {o sz : Nat} (ho : offsetOf fs name = some o) (hs : sizeOfField fs name = some sz)
    (hfit : (i + 1) * elem.size ≤ sz) :
    elementOffset fs name elem i = some (o + i * elem.size) := by
  simp [elementOffset, ho, hs, hfit]

/-- C9: `sva_fp_state_t` has 513 bytes of content and size 528, and
`struct SVAThread` is aligned to 16 bytes. In a `struct SVAThread` at a
16-byte aligned address `base`, under ILP32 and under LP64, element `i`
(`i ≤ maxIC`) of `interruptContexts`, of `savedInterruptContexts` and of
`ICFP`, and the member `fpstate` of the embedded `integerState`, begin at byte
offsets, and so at addresses, that are multiples of 16. -/
theorem thread_records_16_byte_aligned (abi : ABI) (habi : abi = ILP32 ∨ abi = LP64)
    (base : Nat) (hbase : base % 16 = 0) (i : Nat) (hi : i ≤ maxIC) :
    endFrom 0 sva_fp_state_fields = 513 ∧
    sva_fp_state_t.size = 528 ∧
    (SVAThread_t abi).align = 16 ∧
    (∃ o, elementOffset (SVAThread_fields abi) "interruptContexts" (sva_icontext_t abi) i = some o ∧
      o % 16 = 0 ∧ (base + o) % 16 = 0) ∧
    (∃ o, elementOffset (SVAThread_fields abi) "savedInterruptContexts" (sva_icontext_t abi) i
        = some o ∧ o % 16 = 0 ∧ (base + o) % 16 = 0) ∧
    (∃ o, elementOffset (SVAThread_fields abi) "ICFP" sva_fp_state_t i = some o ∧
      o % 16 = 0 ∧ (base + o) % 16 = 0) ∧
    (∃ o p, offsetOf (SVAThread_fields abi) "integerState" = some o ∧
      offsetOf (sva_integer_state_fields abi) "fpstate" = some p ∧
      (o + p) % 16 = 0 ∧ (base + (o + p)) % 16 = 0) := by
  have hi32 : i ≤ 32 := hi
  have f1 : sva_fp_state_t.size = 528 := by decide
  refine ⟨by decide, f1, ?_⟩
  rcases habi with h | h <;> subst h
  · have e6 : (sva_icontext_t ILP32).size = 96 := by decide
    have a1 := elementOffset_of_fits (sva_icontext_t ILP32) i
      (show offsetOf (SVAThread_fields ILP32) "interruptContexts" = some 0 by decide)
      (show sizeOfField (SVAThread_fields ILP32) "interruptContexts" = some 3168 by decide)
      (by rw [e6]; omega)
    have a2 := elementOffset_of_fits (sva_icontext_t ILP32) i
      (show offsetOf (SVAThread_fields ILP32) "savedInterruptContexts" = some 3168 by decide)
      (show sizeOfField (SVAThread_fields ILP32) "savedInterruptContexts" = some 3168 by decide)
      (by rw [e6]; omega)
    have a3 := elementOffset_of_fits sva_fp_state_t i
      (show offsetOf (SVAThread_fields ILP32) "ICFP" = some 6336 by decide)
      (show sizeOfField (SVAThread_fields ILP32) "ICFP" = some 17424 by decide)
      (by rw [f1]; omega)
    rw [e6] at a1 a2
    rw [f1] at a3
    exact ⟨by decide, ⟨_, a1, by omega, by omega⟩, ⟨_, a2, by omega, by omega⟩,
      ⟨_, a3, by omega, by omega⟩, ⟨23840, 96, by decide, by decide, by omega, by omega⟩⟩
  · have e6 : (sva_icontext_t LP64).size = 112 := by decide
    have a1 := elementOffset_of_fits (sva_icontext_t LP64) i
      (show offsetOf (SVAThread_fields LP64) "interruptContexts" = some 0 by decide)
      (show sizeOfField (SVAThread_fields LP64) "interruptContexts" = some 3696 by decide)
      (by rw [e6]; omega)
    have a2 := elementOffset_of_fits (sva_icontext_t LP64) i
      (show offsetOf (SVAThread_fields LP64) "savedInterruptContexts" = some 3696 by decide)
      (show sizeOfField (SVAThread_fields LP64) "savedInterruptContexts" = some 3696 by decide)
      (by rw [e6]; omega)
    have a3 := elementOffset_of_fits sva_fp_state_t i
      (show offsetOf (SVAThread_fields LP64) "ICFP" = some 7392 by decide)
      (show sizeOfField (SVAThread_fields LP64) "ICFP" = some 17424 by decide)
      (by rw [f1]; omega)
    rw [e6] at a1 a2
    rw [f1] at a3
    exact ⟨by decide, ⟨_, a1, by omega, by omega⟩, ⟨_, a2, by omega, by omega⟩,
      ⟨_, a3, by omega, by omega⟩, ⟨24960, 112, by decide, by decide, by omega, by omega⟩⟩

/-- C9 for the last floating point slot, `ICFP[32]`, of a thread at address
`0x4000` under LP64. -/
theorem thread_records_16_byte_aligned_witness :
    (LP64 = ILP32 ∨ LP64 = LP64) ∧ 0x4000 % 16 = 0 ∧ 32 ≤ maxIC ∧
    ∃ o, elementOffset (SVAThread_fields LP64) "ICFP" sva_fp_state_t 32 = some o ∧
      o % 16 = 0 ∧ (0x4000 + o) % 16 = 0 :=
  ⟨Or.inr rfl, by decide, by decide,
    (thread_records_16_byte_aligned LP64 (Or.inr rfl) 0x4000 (by decide) 32
      (by decide)).2.2.2.2.2.1⟩

/-! ## The per-thread arrays -/

/-- C2: `maxIC + 1` is 33, also when narrowed to `unsigned char`. Each of
`interruptContexts`, `savedInterruptContexts` and `ICFP` of a thread has a slot
at every index `i ≤ maxIC` and none at index 33, and each array member is 33
elements long in the struct layout. -/
theorem pool_arrays_have_33_slots (t : SVAThread) (i : Nat) (hi : i ≤ maxIC) :
    maxIC = 32 ∧ maxIC + 1 = 33 ∧ toUChar (maxIC + 1) = 33 ∧
    (t.interruptContexts.slot? i).isSome = true ∧
    (t.savedInterruptContexts.slot? i).isSome = true ∧
    (t.ICFP.slot? i).isSome = true ∧
    (t.interruptContexts.slot? 33).isNone = true ∧
    (t.savedInterruptContexts.slot? 33).isNone = true ∧
    (t.ICFP.slot? 33).isNone = true ∧
    (∀ abi : ABI,
      sizeOfField (SVAThread_fields abi) "interruptContexts" = some (33 * (sva_icontext_t abi).size) ∧
      sizeOfField (SVAThread_fields abi) "savedInterruptContexts"
        = some (33 * (sva_icontext_t abi).size) ∧
      sizeOfField (SVAThread_fields abi) "ICFP" = some (33 * sva_fp_state_t.size)) := by
  have h : i < maxIC + 1 := Nat.lt_succ_of_le hi
  refine ⟨rfl, rfl, by decide, ?_, ?_, ?_, ?_, ?_, ?_, ?_⟩
  · simp [CArray.slot?, h]
  · simp [CArray.slot?, h]
  · simp [CArray.slot?, h]
  · simp [CArray.slot?, maxIC]
  · simp [CArray.slot?, maxIC]
  · simp [CArray.slot?, maxIC]
  · intro abi
    simp [sizeOfField, SVAThread_fields, List.find?, arrayOf, maxIC]

/-- C2 at the last slot, index 32, of the all-zero thread. -/
theorem pool_arrays_have_33_slots_witness :
    32 ≤ maxIC ∧ (SVAThread.zero.interruptContexts.slot? 32).isSome = true ∧
    (SVAThread.zero.ICFP.slot? 33).isNone = true :=
  have h := pool_arrays_have_33_slots SVAThread.zero 32 (by decide)
  ⟨by decide, h.2.2.2.1, h.2.2.2.2.2.2.2.2.1⟩

/-- C6: `validPushTargets` has exactly `maxPushTargets = 16` entries; every
count `k ≤ maxPushTargets` is unchanged by its storage in the `unsigned char`
member `numPushTargets`, and every index below such a count is a slot of the
whitelist, while index 16 is not. -/
theorem whitelist_has_16_entries (t : SVAThread) (k i : Nat) (hk : k ≤ maxPushTargets)
    (hi : i < k) :
    maxPushTargets = 16 ∧ toUChar k = k ∧
    (t.validPushTargets.slot? i).isSome = true ∧
    (t.validPushTargets.slot? maxPushTargets).isNone = true ∧
    (∀ abi : ABI,
      sizeOfField (SVAThread_fields abi) "validPushTargets" = some (16 * (pointer abi).size) ∧
      sizeOfField (SVAThread_fields abi) "numPushTargets" = some 1) := by
  have hk16 : k ≤ 16 := hk
  have h : i < maxPushTargets := Nat.lt_of_lt_of_le hi hk
  refine ⟨rfl, ?_, ?_, ?_, ?_⟩
  · simp only [toUChar]; omega
  · simp [CArray.slot?, h]
  · simp [CArray.slot?]
  · intro abi
    simp [sizeOfField, SVAThread_fields, List.find?, arrayOf, maxPushTargets, uchar]

/-- C6 for a full whitelist: count 16 and its last index 15. -/
theorem whitelist_has_16_entries_witness :
    16 ≤ maxPushTargets ∧ 15 < 16 ∧ toUChar 16 = 16 ∧
    (SVAThread.zero.validPushTargets.slot? 15).isSome = true :=
  have h := whitelist_has_16_entries SVAThread.zero 16 15 (by decide) (by decide)
  ⟨by decide, by decide, h.2.1, h.2.2.1⟩

/-! ## The inline functions -/

/-- C10: in every machine state `getCPUState` returns the null pointer, whose
dereference fails, so none of `currentThread`, `newCurrentIC`, `gip` and
`fp_used` can be read through it. -/
theorem getCPUState_returns_null (m : Machine) :
    getCPUState m = 0 ∧
    m.loadCPUState (getCPUState m) = none ∧
    (m.loadCPUState (getCPUState m)).map CPUState.currentThread = none ∧
    (m.loadCPUState (getCPUState m)).map CPUState.newCurrentIC = none ∧
    (m.loadCPUState (getCPUState m)).map CPUState.gip = none ∧
    (m.loadCPUState (getCPUState m)).map CPUState.fp_used = none := by
  simp [getCPUState, Machine.loadCPUState]

/-- C3: `sva_was_privileged` returns 1 in every machine state. On the machine
whose most recent interrupt context was saved with mode bits 3, the user-mode
pattern, it returns 1 where its header comment documents 0. -/
theorem sva_was_privileged_always_true :
    (∀ m : Machine, sva_was_privileged m = 1) ∧
    userModeMachine.savedModeBits = some 3 ∧
    3 &&& 0x03 ≠ 0 ∧
    sva_was_privileged userModeMachine = 1 ∧
    wasPrivilegedDocumented 3 = 0 := by
  refine ⟨fun m => ?_, by decide, by decide, by decide, by decide⟩
  rfl

/-! ## The interrupt-context allocator -/

/-- An `sva_iunwind` right after the entry of `sva_invoke` pops the frame that
was pushed and restores the processor state. -/
theorem sva_iunwind_after_enter (d : FrameData) (cpu : CPUState) :
    sva_iunwind (sva_invoke_enter d cpu) = .ok (cpu, d) := by
  cases cpu
  cases d
  rfl

/-- The entry of `sva_invoke` makes the chain one frame longer. -/
theorem chainLength_after_enter (d : FrameData) (cpu : CPUState) :
    chainLength (sva_invoke_enter d cpu).gip = chainLength cpu.gip + 1 := by
  rfl

/-- A successful `sva_iunwind` makes the chain exactly one frame shorter. -/
theorem sva_iunwind_one_shorter (cpu next : CPUState) (d : FrameData)
    (h : sva_iunwind cpu = .ok (next, d)) :
    chainLength next.gip + 1 = chainLength cpu.gip := by
  unfold sva_iunwind at h
  split at h
  · simp at h
  · rename_i hgip
    simp only [Except.ok.injEq, Prod.mk.injEq] at h
    rw [← h.1, hgip]
    rfl

/-- On an empty chain `sva_iunwind` is fatal. -/
theorem sva_iunwind_empty (cpu : CPUState) (h : cpu.gip = .null) :
    sva_iunwind cpu = .error .UnwindUnderflow := by
  unfold sva_iunwind
  rw [h]

/-- A run of `a + b` unwinds is a run of `a` followed by a run of `b`. -/
theorem iunwindN_add (a b : Nat) :
    ∀ cpu : CPUState, iunwindN (a + b) cpu = (iunwindN a cpu).bind (iunwindN b) := by
  induction a with
  | zero => intro cpu; simp [iunwindN, Except.bind]
  | succ a ih =>
    intro cpu
    rw [Nat.succ_add]
    simp only [iunwindN]
    cases h : sva_iunwind cpu with
    | error e => simp [Except.bind]
    | ok r => exact ih r.1

/-- Nested invokes make the chain as many frames longer. -/
theorem chainLength_invokeNested (ds : List FrameData) :
    ∀ cpu : CPUState, chainLength (invokeNested ds cpu).gip = chainLength cpu.gip + ds.length := by
  induction ds with
  | nil => intro cpu; rfl
  | cons d ds ih =>
    intro cpu
    simp only [invokeNested, ih, chainLength_after_enter, List.length_cons]
    omega

/-- As many unwinds as there were nested invokes restore the processor
state. -/
theorem iunwindN_invokeNested (ds : List FrameData) :
    ∀ cpu : CPUState, iunwindN ds.length (invokeNested ds cpu) = .ok cpu := by
  induction ds with
  | nil => intro cpu; rfl
  | cons d ds ih =>
    intro cpu
    show iunwindN (ds.length + 1) (invokeNested ds (sva_invoke_enter d cpu)) = .ok cpu
    rw [iunwindN_add, ih]
    simp only [Except.bind, iunwindN, sva_iunwind_after_enter]

/-- On a chain of at least `k` frames, `k` unwinds succeed and leave `k`
frames fewer. -/
theorem iunwindN_within_chain (k : Nat) :
    ∀ cpu : CPUState, k ≤ chainLength cpu.gip →
      ∃ last, iunwindN k cpu = .ok last ∧ chainLength last.gip + k = chainLength cpu.gip := by
  induction k with
  | zero => intro cpu _; exact ⟨cpu, rfl, rfl⟩
  | succ k ih =>
    intro cpu hk
    cases hu : sva_iunwind cpu with
    | error e =>
      unfold sva_iunwind at hu
      split at hu
      · rename_i hgip
        rw [hgip] at hk
        simp [chainLength] at hk
      · simp at hu
    | ok r =>
      obtain ⟨next, d⟩ := r
      have hlen := sva_iunwind_one_shorter cpu next d hu
      obtain ⟨last, hrun, hlast⟩ := ih next (by omega)
      refine ⟨last, ?_, by omega⟩
      simp only [iunwindN, hu]
      exact hrun

/-- C5: on a processor whose invoke chain is empty, `N` nested `sva_invoke`
calls build a chain of `N` frames; `k ≤ N` calls of `sva_iunwind` then succeed
and leave `N - k` frames, every successful `sva_iunwind` leaves the chain one
frame shorter, `N` of them leave the chain empty, and one more fails with an
unwind underflow. -/
theorem invoke_unwind_stack_discipline (cpu : CPUState) (hempty : cpu.gip = .null)
    (N : Nat) (ds : List FrameData) (hN : ds.length = N) :
    chainLength (invokeNested ds cpu).gip = N ∧
    (∀ k : Nat, k ≤ N →
      ∃ c, iunwindN k (invokeNested ds cpu) = .ok c ∧ chainLength c.gip = N - k) ∧
    (∀ (c next : CPUState) (d : FrameData), sva_iunwind c = .ok (next, d) →
      chainLength next.gip + 1 = chainLength c.gip) ∧
    (∃ c, iunwindN N (invokeNested ds cpu) = .ok c ∧ c.gip = .null ∧ chainLength c.gip = 0) ∧
    iunwindN (N + 1) (invokeNested ds cpu) = .error .UnwindUnderflow := by
  subst hN
  have hzero : chainLength cpu.gip = 0 := by rw [hempty]; rfl
  have hlen : chainLength (invokeNested ds cpu).gip = ds.length := by
    rw [chainLength_invokeNested, hzero]
    omega
  refine ⟨hlen, ?_, sva_iunwind_one_shorter,
    ⟨cpu, iunwindN_invokeNested ds cpu, hempty, hzero⟩, ?_⟩
  · intro k hk
    obtain ⟨c, hrun, hc⟩ := iunwindN_within_chain k (invokeNested ds cpu) (by omega)
    exact ⟨c, hrun, by omega⟩
  · rw [iunwindN_add, iunwindN_invokeNested]
    simp only [Except.bind, iunwindN, sva_iunwind_empty cpu hempty]

/-- C5 with two nested invokes on the all-zero processor: the chain has two
frames and the third unwind in a row is fatal. -/
theorem invoke_unwind_stack_discipline_witness :
    CPUState.zero.gip = .null ∧
    [(⟨4, 5, 6, 7, 8, 9, 10, 11, 100⟩ : FrameData), ⟨14, 15, 16, 17, 18, 19, 20, 21, 200⟩].length = 2 ∧
    chainLength (invokeNested [⟨4, 5, 6, 7, 8, 9, 10, 11, 100⟩, ⟨14, 15, 16, 17, 18, 19, 20, 21, 200⟩]
      CPUState.zero).gip = 2 ∧
    iunwindN 3 (invokeNested [⟨4, 5, 6, 7, 8, 9, 10, 11, 100⟩, ⟨14, 15, 16, 17, 18, 19, 20, 21, 200⟩]
      CPUState.zero) = .error .UnwindUnderflow :=
  have h := invoke_unwind_stack_discipline CPUState.zero rfl 2
    [⟨4, 5, 6, 7, 8, 9, 10, 11, 100⟩, ⟨14, 15, 16, 17, 18, 19, 20, 21, 200⟩] rfl
  ⟨rfl, rfl, h.1, h.2.2.2.2⟩

end SVA
